import Mathlib

/-!
Verification of the World Weather Online Rust dashboard (`src/rust/src/main.rs`)
against its natural-language specification.

The program is shallowly embedded:
* `Vec<T>` becomes `List T`, `Option<T>` becomes `Option T`, `String`/`&str` become `String`.
* Unchecked indexing `v[0]` is modelled with `List.head?`; a `none` result models the
  out-of-bounds panic, so the display functions return `Option String` (the text the
  sequence of `println!` calls would produce, `none` when the Rust code would panic).
* `str::to_lowercase` is modelled per-character with `Char.toLower`, which agrees with
  Rust on the ASCII range relevant to the classifier keywords.
* Rust's `format!` width specifiers count characters (Unicode scalar values),
  modelled by `padRight` (left-aligned) and `padLeft` (right-aligned) over `String.data`.
* `process::exit` and the HTTP interaction of `fetch_weather` are modelled by the
  `FetchOutcome` type: the network part of the function (client build, GET, status
  check, JSON decode) is abstracted as the outcome it would produce, while the
  API-key precondition check at the top of `fetch_weather` is embedded exactly.
-/

/-! Generic string helpers -/

/-- Substring test on character lists: does `h` contain `n` as a contiguous infix?
Models Rust's `str::contains` used by `get_icon`. -/
def containsSub (n : List Char) : List Char → Bool
  | [] => n.isEmpty
  | c :: t => n.isPrefixOf (c :: t) || containsSub n t

/-- Substring test on strings (`h.contains(n)` in the Rust source). -/
def strContains (h n : String) : Bool :=
  containsSub n.data h.data

/-- Per-character ASCII lowercasing of a string: the model of `str::to_lowercase`
as used on the weather descriptions (all classifier keywords are ASCII). -/
def toLowerStr (s : String) : String :=
  ⟨s.data.map Char.toLower⟩

/-- Model of Rust's `s.repeat(n)` (used for the `─` separator lines). -/
def repeatStr (s : String) (n : Nat) : String :=
  String.join (List.replicate n s)

/-- Right-aligned padding to width `w`, as in `format!` with a right-align specifier. -/
def padLeft (w : Nat) (s : String) : String :=
  String.mk (List.replicate (w - s.data.length) ' ') ++ s

/-- Left-aligned padding to width `w`, as in `format!` with a left-align specifier. -/
def padRight (w : Nat) (s : String) : String :=
  s ++ String.mk (List.replicate (w - s.data.length) ' ')

/-! The icon classifier (`get_icon`, main.rs lines 35-51) -/

/-- Classifier `get_icon`: lowercases the description and returns the first matching
symbol, in exactly the source's rule order. -/
def get_icon (description : String) : String :=
  let desc := toLowerStr description
  if strContains desc "sunny" then "☀️"
  else if strContains desc "clear" then "🌙"
  else if strContains desc "partly cloudy" then "⛅"
  else if strContains desc "cloudy" then "☁️"
  else if strContains desc "overcast" then "☁️"
  else if strContains desc "mist" then "🌫️"
  else if strContains desc "fog" then "🌫️"
  else if strContains desc "rain" then "🌧️"
  else if strContains desc "drizzle" then "🌦️"
  else if strContains desc "snow" then "❄️"
  else if strContains desc "sleet" then "🌨️"
  else if strContains desc "thunder" then "⛈️"
  else if strContains desc "blizzard" then "🌨️"
  else "🌡️"

/-! API data structures (main.rs lines 56-104) -/

structure Description where
  value : String
  deriving Repr, DecidableEq

structure CurrentCondition where
  temp_c : String
  temp_f : String
  feels_like_c : String
  humidity : String
  windspeed_miles : String
  winddir : String
  uv_index : String
  visibility : String
  weather_desc : List Description
  deriving Repr, DecidableEq

structure HourlyData where
  weather_desc : List Description
  chanceofrain : Option String
  deriving Repr, DecidableEq

structure DayForecast where
  date : String
  max_temp_c : String
  min_temp_c : String
  hourly : List HourlyData
  deriving Repr, DecidableEq

structure NearestArea where
  area_name : List Description
  country : List Description
  deriving Repr, DecidableEq

structure WeatherData where
  current_condition : List CurrentCondition
  weather : List DayForecast
  nearest_area : Option (List NearestArea)
  deriving Repr, DecidableEq

/-! The API call (`fetch_weather`, main.rs lines 109-141) -/

/-- Outcome of running `fetch_weather`: process termination via `process::exit`
(with the lines printed to stderr before exiting), a successful `Ok(data)`,
or an `Err` returned to the caller. -/
inductive FetchOutcome where
  | exited (code : Nat) (diagnostics : List String)
  | ok (data : WeatherData)
  | err (msg : String)
  deriving Repr, DecidableEq

/-- The stderr guidance printed by the API-key precondition check. -/
def apiKeyGuidance : List String :=
  ["❌  Please set your API key!",
   "    export WWO_API_KEY=\x27your_key_here\x27",
   "    Get a free key: https://www.worldweatheronline.com/weather-api/"]

/-- Embedding of `fetch_weather`, with everything after the API-key precondition
check (client construction, HTTP request, status check, JSON decoding) abstracted
by the `network` outcome it would produce.  The embedded part is the check at
main.rs lines 110-115: the sentinel key exits the process before any of that
runs, which is why the result cannot depend on `network`. -/
def fetch_weather (api_key : String) (network : FetchOutcome) : FetchOutcome :=
  if api_key = "your_api_key_here" then FetchOutcome.exited 1 apiKeyGuidance
  else network

/-! Display (main.rs lines 146-184) -/

/-- Text printed by `display_current`, or `none` when the unchecked
`current.weather_desc[0]` would panic. -/
def display_current (current : CurrentCondition) (location_name : String) : Option String :=
  match current.weather_desc.head? with
  | none => none
  | some d0 =>
    let desc := d0.value
    let icon := get_icon desc
    some ("\n" ++ repeatStr "─" 50 ++ "\n"
      ++ "📍 " ++ location_name ++ " — Right Now\n"
      ++ repeatStr "─" 50 ++ "\n"
      ++ icon ++ "  " ++ desc ++ "\n"
      ++ "🌡️  Temperature : " ++ current.temp_c ++ "°C / " ++ current.temp_f
        ++ "°F (Feels like " ++ current.feels_like_c ++ "°C)\n"
      ++ "💧  Humidity    : " ++ current.humidity ++ "%\n"
      ++ "💨  Wind        : " ++ current.windspeed_miles ++ " mph " ++ current.winddir ++ "\n"
      ++ "👁️  Visibility  : " ++ current.visibility ++ " km\n"
      ++ "☀️  UV Index    : " ++ current.uv_index ++ "\n"
      ++ repeatStr "─" 50 ++ "\n")

/-- One row of the forecast table (the loop body of `display_forecast`),
or `none` when `day.hourly[0]` or `...weather_desc[0]` would panic.
Note the rain cell: `format!` appends the percent sign ALSO to the `"N/A"`
fallback produced by `.unwrap_or("N/A")`. -/
def forecastRow (day : DayForecast) : Option String :=
  match day.hourly.head? with
  | none => none
  | some h0 =>
    match h0.weather_desc.head? with
    | none => none
    | some d0 =>
      let desc := d0.value
      let icon := get_icon desc
      let rain := h0.chanceofrain.getD "N/A"
      let cond := icon ++ " " ++ desc
      some (padRight 14 day.date ++ " " ++ padRight 25 cond ++ " "
        ++ padLeft 7 (day.max_temp_c ++ "°C") ++ " "
        ++ padLeft 7 (day.min_temp_c ++ "°C") ++ " "
        ++ padLeft 7 (rain ++ "%") ++ "\n")

/-- All forecast rows; `none` as soon as one row would panic. -/
def forecastRows : List DayForecast → Option (List String)
  | [] => some []
  | d :: rest =>
    match forecastRow d, forecastRows rest with
    | some r, some rs => some (r :: rs)
    | _, _ => none

/-- Text printed by `display_forecast`: header, the rows, the closing separator. -/
def display_forecast (weather_days : List DayForecast) : Option String :=
  match forecastRows weather_days with
  | none => none
  | some rows =>
    some ("\n📅 Forecast\n\n"
      ++ padRight 14 "Date" ++ " " ++ padRight 25 "Conditions" ++ " "
      ++ padLeft 7 "High" ++ " " ++ padLeft 7 "Low" ++ " " ++ padLeft 7 "Rain%" ++ "\n"
      ++ repeatStr "─" 65 ++ "\n"
      ++ String.join rows
      ++ repeatStr "─" 65 ++ "\n")

/-! The entry point (`main`, main.rs lines 189-216) -/

/-- Location label computed in `main` (lines 200-204) from
`nearest_area.as_ref().and_then(|a| a.first()).map(...).unwrap_or_else(...)`:
the outer list is taken with the panic-free `first()`, while the inner
`area_name[0]` / `country[0]` accesses are unchecked (`none` models their panic). -/
def locationLabel (nearest_area : Option (List NearestArea)) (location : String) :
    Option String :=
  match nearest_area with
  | none => some location
  | some areas =>
    match areas.head? with
    | none => some location
    | some area =>
      match area.area_name.head?, area.country.head? with
      | some a, some c => some (a.value ++ ", " ++ c.value)
      | _, _ => none

/-- The whole display phase of `main`'s `Ok(data)` branch: location label,
current conditions, forecast table and the attribution footer. -/
def render_main (data : WeatherData) (location : String) : Option String :=
  match locationLabel data.nearest_area location with
  | none => none
  | some location_name =>
    match data.current_condition.head? with
    | none => none
    | some current =>
      match display_current current location_name, display_forecast data.weather with
      | some a, some b =>
        some (a ++ b ++ "\nData by World Weather Online — https://www.worldweatheronline.com\n")
      | _, _ => none

/-- The optional leading `+` sign accepted by Rust's unsigned integer parsing. -/
def stripPlus (cs : List Char) : List Char :=
  match cs with
  | c :: rest => if c = '+' then rest else cs
  | [] => cs

/-- Decimal value of a digit string. -/
def digitsVal (cs : List Char) : Nat :=
  cs.foldl (fun a c => a * 10 + (c.toNat - 48)) 0

/-- Rust's `str::parse::<u8>` (via `.parse().ok()` at main.rs line 192):
an optional leading `+`, then at least one ASCII digit, value at most 255. -/
def parseU8 (s : String) : Option Nat :=
  if (stripPlus s.data).isEmpty then none
  else if (stripPlus s.data).all Char.isDigit then
    if digitsVal (stripPlus s.data) ≤ 255 then some (digitsVal (stripPlus s.data)) else none
  else none

/-- Day-count resolution at `main` line 192:
`args.get(2).and_then(|d| d.parse().ok()).unwrap_or(5)`. -/
def resolveDays (arg : Option String) : Nat :=
  match arg with
  | none => 5
  | some s => (parseU8 s).getD 5

/-- Location resolution at `main` line 191:
`args.get(1).map(String::as_str).unwrap_or("London")`. -/
def resolveLocation (arg : Option String) : String :=
  arg.getD "London"

/-! Concrete records used by counterexamples and witnesses -/

/-- The current condition of the mocked payload described by the spec. -/
def cc3 : CurrentCondition :=
  ⟨"20", "68", "19", "50", "10", "NW", "3", "10", [⟨"Sunny"⟩]⟩

/-- The forecast day of the mocked payload described by the spec. -/
def day3 : DayForecast :=
  ⟨"2024-01-01", "22", "15", [⟨[⟨"Sunny"⟩], some "0"⟩]⟩

/-- The mocked valid payload described by the spec (no `nearest_area`). -/
def data3 : WeatherData :=
  ⟨[cc3], [day3], none⟩

/-- A forecast day whose representative hourly entry has no chance-of-rain value. -/
def dayNoRain : DayForecast :=
  ⟨"2024-01-02", "10", "5", [⟨[⟨"Cloudy"⟩], none⟩]⟩

/-- Another day without a chance-of-rain value, for the independent witness. -/
def dayMist : DayForecast :=
  ⟨"2024-02-03", "8", "2", [⟨[⟨"Mist"⟩], none⟩]⟩

/-- A record whose current condition has an empty description sequence. -/
def emptyDescData : WeatherData :=
  ⟨[⟨"1", "1", "1", "1", "1", "N", "1", "1", []⟩], [], none⟩

/-! Helper lemmas -/

theorem containsSub_iff (n h : List Char) : containsSub n h = true ↔ n <:+: h := by
  induction h with
  | nil => simp [containsSub, List.infix_nil]
  | cons c t ih => simp [containsSub, List.infix_cons_iff, ih, List.isPrefixOf_iff_prefix]

theorem strContains_append_left (s t n : String) (h : strContains s n = true) :
    strContains (s ++ t) n = true := by
  unfold strContains at h ⊢
  rw [String.data_append, containsSub_iff] at *
  exact h.trans (List.prefix_append s.data t.data).isInfix

theorem strContains_append_right (s t n : String) (h : strContains t n = true) :
    strContains (s ++ t) n = true := by
  unfold strContains at h ⊢
  rw [String.data_append, containsSub_iff] at *
  exact h.trans (List.suffix_append s.data t.data).isInfix

theorem toLower_toLower (c : Char) : Char.toLower (Char.toLower c) = Char.toLower c := by
  by_cases h : 65 ≤ c.toNat ∧ c.toNat ≤ 90
  · have h1 : Char.toLower c = Char.ofNat (c.toNat + 32) := by
      unfold Char.toLower
      simp only [ge_iff_le]
      rw [if_pos h]
    rw [h1]
    obtain ⟨h65, h90⟩ := h
    generalize hg : c.toNat = k at h65 h90 h1 ⊢
    interval_cases k <;> decide
  · have h1 : Char.toLower c = c := by
      unfold Char.toLower
      simp only [ge_iff_le]
      rw [if_neg h]
    rw [h1, h1]

theorem toLowerStr_idem (s : String) : toLowerStr (toLowerStr s) = toLowerStr s := by
  unfold toLowerStr
  simp only [List.map_map]
  congr 1
  induction s.data with
  | nil => rfl
  | cons c t ih => simp [Function.comp, toLower_toLower, ih]

theorem parseU8_le (s : String) (v : Nat) (h : parseU8 s = some v) : v ≤ 255 := by
  unfold parseU8 at h
  split at h
  · exact absurd h (by simp)
  · split at h
    · split at h
      · cases h
        assumption
      · exact absurd h (by simp)
    · exact absurd h (by simp)

theorem forecastRows_isSome (l : List DayForecast)
    (hdh : ∀ d, d ∈ l → d.hourly ≠ [])
    (hdhd : ∀ d, d ∈ l → ∀ h, h ∈ d.hourly → h.weather_desc ≠ []) :
    (forecastRows l).isSome = true := by
  induction l with
  | nil => rfl
  | cons d rest ih =>
    have h1 : d.hourly ≠ [] := hdh d (List.mem_cons_self d rest)
    have hrow : (forecastRow d).isSome = true := by
      cases hd : d.hourly with
      | nil => exact absurd hd h1
      | cons h0 hs =>
        have h2 : h0.weather_desc ≠ [] :=
          hdhd d (List.mem_cons_self d rest) h0 (by rw [hd]; exact List.mem_cons_self h0 hs)
        cases hw : h0.weather_desc with
        | nil => exact absurd hw h2
        | cons d0 ds => simp [forecastRow, hd, hw]
    have hrest : (forecastRows rest).isSome = true :=
      ih (fun x hx => hdh x (List.mem_cons_of_mem d hx))
         (fun x hx => hdhd x (List.mem_cons_of_mem d hx))
    obtain ⟨r, hr⟩ := Option.isSome_iff_exists.mp hrow
    obtain ⟨rs, hrs⟩ := Option.isSome_iff_exists.mp hrest
    simp [forecastRows, hr, hrs]

/-! Claim theorems -/

/-- C1 counterexample: for a forecast day whose representative hourly entry has no
chance-of-rain value, the rendered forecast row DOES contain "N/A%" (the "N/A"
fallback receives the unconditional percent suffix), contradicting the claim
that "N/A%" is not displayed. -/
theorem claim_C1_cex :
    strContains ((forecastRow dayNoRain).getD "") "N/A%" = true := by decide

/-- C1 (amended): for every forecast day whose representative (first) hourly entry
has no chance-of-rain value, the rendered forecast row displays the literal
fallback "N/A" for the rain field, and — because the percent suffix is appended
unconditionally — it displays "N/A%". -/
theorem claim_C1 (day : DayForecast) (h0 : HourlyData) (rest : List HourlyData)
    (d0 : Description) (ds : List Description)
    (hh : day.hourly = h0 :: rest)
    (hw : h0.weather_desc = d0 :: ds)
    (hrain : h0.chanceofrain = none) :
    strContains ((forecastRow day).getD "") "N/A" = true ∧
    strContains ((forecastRow day).getD "") "N/A%" = true := by
  simp only [forecastRow, hh, hw, hrain, List.head?_cons, Option.getD_none, Option.getD_some]
  constructor <;>
  · apply strContains_append_left
    apply strContains_append_right
    decide

/-- C1 witness: the amended claim instantiated on a concrete misty day
without a chance-of-rain value. -/
theorem claim_C1_witness :
    strContains ((forecastRow dayMist).getD "") "N/A" = true ∧
    strContains ((forecastRow dayMist).getD "") "N/A%" = true :=
  claim_C1 dayMist ⟨[⟨"Mist"⟩], none⟩ [] ⟨"Mist"⟩ [] rfl rfl rfl

/-- C2 counterexample: "Sunny with partly cloudy spells" contains "partly cloudy"
(case-insensitively) but the classifier returns the sunny symbol, not the
partly-cloudy one, because the "sunny" rule is tested first. -/
theorem claim_C2_cex :
    strContains (toLowerStr "Sunny with partly cloudy spells") "partly cloudy" = true ∧
    get_icon "Sunny with partly cloudy spells" = "☀️" ∧
    get_icon "Sunny with partly cloudy spells" ≠ "⛅" := by decide

/-- C2 (amended): for every description containing "partly cloudy" (in any letter
case) the classifier never returns the plain-cloudy symbol, and — provided the
description matches neither of the earlier "sunny" and "clear" rules — it
returns the partly-cloudy symbol. -/
theorem claim_C2 (s : String)
    (hpc : strContains (toLowerStr s) "partly cloudy" = true) :
    get_icon s ≠ "☁️" ∧
    (strContains (toLowerStr s) "sunny" = false →
     strContains (toLowerStr s) "clear" = false →
     get_icon s = "⛅") := by
  constructor
  · simp only [get_icon]
    cases hs : strContains (toLowerStr s) "sunny"
    · cases hc : strContains (toLowerStr s) "clear"
      · simp only [hs, hc, hpc, Bool.false_eq_true, if_false, if_true]
        decide
      · simp only [hs, hc, Bool.false_eq_true, if_false, if_true]
        decide
    · simp only [hs, if_true]
      decide
  · intro hs hc
    simp only [get_icon, hs, hc, hpc, Bool.false_eq_true, if_false, if_true]

/-- C2 witness: the amended claim instantiated on "Partly Cloudy". -/
theorem claim_C2_witness :
    strContains (toLowerStr "Partly Cloudy") "partly cloudy" = true ∧
    (get_icon "Partly Cloudy" ≠ "☁️" ∧
     (strContains (toLowerStr "Partly Cloudy") "sunny" = false →
      strContains (toLowerStr "Partly Cloudy") "clear" = false →
      get_icon "Partly Cloudy" = "⛅")) :=
  ⟨by decide, claim_C2 "Partly Cloudy" (by decide)⟩

set_option maxRecDepth 20000 in
set_option maxHeartbeats 4000000 in
/-- C3: on the mocked payload (one current condition, one forecast day), the
combined renderer output contains the sunny symbol, "20°C / 68°F",
"2024-01-01", "22°C", "15°C" and "0%". -/
theorem claim_C3 :
    strContains ((render_main data3 "London").getD "") "☀️" = true ∧
    strContains ((render_main data3 "London").getD "") "20°C / 68°F" = true ∧
    strContains ((render_main data3 "London").getD "") "2024-01-01" = true ∧
    strContains ((render_main data3 "London").getD "") "22°C" = true ∧
    strContains ((render_main data3 "London").getD "") "15°C" = true ∧
    strContains ((render_main data3 "London").getD "") "0%" = true := by
  decide

/-- C4: with `nearest_area` present and its first entry naming Paris, France,
the location label is "Paris, France"; with `nearest_area` absent, the label
is the originally requested location string. -/
theorem claim_C4 :
    (∀ loc, locationLabel
      (some [⟨[⟨"Paris"⟩], [⟨"France"⟩]⟩]) loc = some "Paris, France") ∧
    (∀ loc, locationLabel none loc = some loc) :=
  ⟨fun _ => rfl, fun _ => rfl⟩

/-- C4 witness: the two label computations instantiated at the request "Berlin". -/
theorem claim_C4_witness :
    locationLabel (some [⟨[⟨"Paris"⟩], [⟨"France"⟩]⟩]) "Berlin" = some "Paris, France" ∧
    locationLabel none "Berlin" = some "Berlin" :=
  ⟨claim_C4.1 "Berlin", claim_C4.2 "Berlin"⟩

/-- C5: with the sentinel API key, `fetch_weather` exits the process with code 1
(printing the guidance lines to stderr), independently of anything the network
would have returned — so no HTTP request is consulted — and in particular it
returns neither `Ok` nor `Err` to the caller. -/
theorem claim_C5 (network : FetchOutcome) :
    fetch_weather "your_api_key_here" network = FetchOutcome.exited 1 apiKeyGuidance ∧
    apiKeyGuidance ≠ [] ∧
    (∀ data, fetch_weather "your_api_key_here" network ≠ FetchOutcome.ok data) ∧
    (∀ msg, fetch_weather "your_api_key_here" network ≠ FetchOutcome.err msg) := by
  refine ⟨rfl, by decide, fun data h => ?_, fun msg h => ?_⟩ <;>
    simp [fetch_weather] at h

/-- C5 witness: instantiated at a concrete would-be network error. -/
theorem claim_C5_witness :
    fetch_weather "your_api_key_here" (FetchOutcome.err "boom")
      = FetchOutcome.exited 1 apiKeyGuidance ∧
    fetch_weather "your_api_key_here" (FetchOutcome.err "boom")
      ≠ FetchOutcome.err "boom" :=
  ⟨(claim_C5 (FetchOutcome.err "boom")).1,
   (claim_C5 (FetchOutcome.err "boom")).2.2.2 "boom"⟩

/-- C6: a second positional argument that fails to parse yields the default
day count 5, and an absent second positional argument also yields 5. -/
theorem claim_C6 :
    (∀ s, parseU8 s = none → resolveDays (some s) = 5) ∧ resolveDays none = 5 := by
  constructor
  · intro s h
    simp [resolveDays, h]
  · rfl

/-- C6 witness: "abc" does not parse, and the resolved day count is 5. -/
theorem claim_C6_witness :
    parseU8 "abc" = none ∧ resolveDays (some "abc") = 5 :=
  ⟨by decide, claim_C6.1 "abc" (by decide)⟩

/-- C7: the classifier is case-insensitive — it yields the same symbol on a
string and on its lowercased form; in particular "SUNNY", "Sunny" and "sunny"
all yield the same symbol. -/
theorem claim_C7 :
    (∀ s, get_icon (toLowerStr s) = get_icon s) ∧
    get_icon "SUNNY" = get_icon "sunny" ∧ get_icon "Sunny" = get_icon "sunny" := by
  refine ⟨fun s => ?_, by decide, by decide⟩
  simp only [get_icon, toLowerStr_idem]

/-- C7 witness: the case-insensitivity equation instantiated at "SUNNY". -/
theorem claim_C7_witness : get_icon (toLowerStr "SUNNY") = get_icon "SUNNY" :=
  claim_C7.1 "SUNNY"

/-- C8: under the precondition that the description sequences, every day's hourly
sequence, and the current-condition sequence are non-empty, the whole rendering
pipeline performs only in-bounds accesses (it produces output rather than the
`none` that models a panic); without the precondition, an empty description
sequence surfaces as an out-of-bounds access (`none`), not a handled error. -/
theorem claim_C8 (data : WeatherData) (location : String)
    (hcc : data.current_condition ≠ [])
    (hccd : ∀ c, c ∈ data.current_condition → c.weather_desc ≠ [])
    (hdh : ∀ d, d ∈ data.weather → d.hourly ≠ [])
    (hdhd : ∀ d, d ∈ data.weather → ∀ h, h ∈ d.hourly → h.weather_desc ≠ [])
    (hna : ∀ l, data.nearest_area = some l →
      ∀ a, a ∈ l → a.area_name ≠ [] ∧ a.country ≠ []) :
    (render_main data location).isSome = true ∧
    render_main emptyDescData "London" = none := by
  refine ⟨?_, by decide⟩
  obtain ⟨label, hlabel⟩ : ∃ x, locationLabel data.nearest_area location = some x := by
    cases hn : data.nearest_area with
    | none => exact ⟨location, by simp [locationLabel]⟩
    | some areas =>
      cases areas with
      | nil => exact ⟨location, by simp [locationLabel]⟩
      | cons a rest =>
        obtain ⟨han, hco⟩ := hna (a :: rest) hn a (List.mem_cons_self a rest)
        cases h1 : a.area_name with
        | nil => exact absurd h1 han
        | cons x xs =>
          cases h2 : a.country with
          | nil => exact absurd h2 hco
          | cons y ys =>
            exact ⟨x.value ++ ", " ++ y.value, by simp [locationLabel, h1, h2]⟩
  cases hc : data.current_condition with
  | nil => exact absurd hc hcc
  | cons c cs =>
    have hwd : c.weather_desc ≠ [] :=
      hccd c (by rw [hc]; exact List.mem_cons_self c cs)
    have haS : (display_current c label).isSome = true := by
      cases hw : c.weather_desc with
      | nil => exact absurd hw hwd
      | cons d0 ds => simp [display_current, hw]
    obtain ⟨a, ha⟩ := Option.isSome_iff_exists.mp haS
    obtain ⟨rows, hrows⟩ :=
      Option.isSome_iff_exists.mp (forecastRows_isSome data.weather hdh hdhd)
    have hb : display_forecast data.weather = some
        ("\n📅 Forecast\n\n"
          ++ padRight 14 "Date" ++ " " ++ padRight 25 "Conditions" ++ " "
          ++ padLeft 7 "High" ++ " " ++ padLeft 7 "Low" ++ " " ++ padLeft 7 "Rain%" ++ "\n"
          ++ repeatStr "─" 65 ++ "\n"
          ++ String.join rows
          ++ repeatStr "─" 65 ++ "\n") := by
      simp [display_forecast, hrows]
    simp [render_main, hlabel, hc, ha, hb]

/-- C8 witness: the mocked payload satisfies the precondition and renders, while
the record with an empty description sequence hits the modelled out-of-bounds. -/
theorem claim_C8_witness :
    (render_main data3 "London").isSome = true ∧
    render_main emptyDescData "London" = none :=
  claim_C8 data3 "London" (by decide) (by decide) (by decide) (by decide)
    (fun l h => nomatch h)

/-- C9: an empty `nearest_area` list is handled gracefully (the label falls
back to the requested location, because the code uses the panic-free `first()`),
while an empty inner `area_name` or `country` list is indexed unchecked and
panics (modelled as `none`). -/
theorem claim_C9 :
    (∀ loc, locationLabel (some []) loc = some loc) ∧
    locationLabel (some [⟨[], [⟨"France"⟩]⟩]) "Paris" = none ∧
    locationLabel (some [⟨[⟨"Paris"⟩], []⟩]) "Paris" = none :=
  ⟨fun _ => rfl, rfl, rfl⟩

/-- C9 witness: the empty nearest-area fallback instantiated at "Lyon". -/
theorem claim_C9_witness : locationLabel (some []) "Lyon" = some "Lyon" :=
  claim_C9.1 "Lyon"

/-- C10: the day count is parsed as an unsigned 8-bit integer, so EVERY integer
argument outside 0-255 yields the default 5: every digit string (with optional
`+` sign) whose value exceeds 255 yields 5, and every `-`-prefixed argument
(hence every negative integer) yields 5 — with "300" and "-1" as instances;
values like 0 or 255 are accepted (so the range is 0-255, not 1-14), and the
resolved day count never exceeds 255. -/
theorem claim_C10 :
    (∀ s, (stripPlus s.data).all Char.isDigit = true →
      255 < digitsVal (stripPlus s.data) → resolveDays (some s) = 5) ∧
    (∀ s rest, s.data = '-' :: rest → resolveDays (some s) = 5) ∧
    parseU8 "300" = none ∧ parseU8 "-1" = none ∧
    resolveDays (some "300") = 5 ∧ resolveDays (some "-1") = 5 ∧
    resolveDays (some "0") = 0 ∧ resolveDays (some "255") = 255 ∧
    (∀ arg, resolveDays arg ≤ 255) := by
  refine ⟨fun s hdig hval => ?_, fun s rest hs => ?_,
    by decide, by decide, by decide, by decide, by decide, by decide, fun arg => ?_⟩
  · have hne : (stripPlus s.data).isEmpty = false := by
      cases hsp : stripPlus s.data with
      | nil =>
        rw [hsp] at hval
        exact absurd hval (by decide)
      | cons c t => rfl
    have hp : parseU8 s = none := by
      unfold parseU8
      rw [if_neg (by simp [hne]), if_pos hdig, if_neg (by omega)]
    simp [resolveDays, hp]
  · have h1 : stripPlus s.data = '-' :: rest := by
      rw [hs]
      simp [stripPlus]
    have h2 : (('-' : Char) :: rest).all Char.isDigit = false := by
      rw [List.all_cons]
      rw [show Char.isDigit '-' = false from rfl]
      rfl
    have hp : parseU8 s = none := by
      unfold parseU8
      rw [h1, h2]
      simp
    simp [resolveDays, hp]
  · match arg with
    | none => decide
    | some s =>
      match hp : parseU8 s with
      | none => simp [resolveDays, hp]
      | some v =>
        simp only [resolveDays, hp, Option.getD_some]
        exact parseU8_le s v hp

/-- C10 witness: the two universal out-of-range clauses instantiated at the
over-range "300" and the negative "-7". -/
theorem claim_C10_witness :
    resolveDays (some "300") = 5 ∧ resolveDays (some "-7") = 5 :=
  ⟨claim_C10.1 "300" (by decide) (by decide),
   claim_C10.2.1 "-7" "7".data (by decide)⟩
